import Mathlib

/-!
Shallow embedding of the Device Session & Command Core of the `paradox`
integration (`custom_components/paradox/device.py`, with the command
encodings from `alarm_control_panel.py` and `camera.py` and the constants
from `const.py`).

Remote calls are modelled by an environment (`Env`) recording the outcome
the transport client would produce for each endpoint; the three exception
classes caught by the code are modelled by `RemoteError`:
  `transport`     = `ClientConnectionError` / `asyncio.TimeoutError`
  `authorization` = `ParadoxModuleError`
  `unclassified`  = `NotImplementedError`
Each operation returns its Python return value together with the updated
device state and a `StepLog` recording which remote calls the executed
path performed (login attempts, login success, whether a
`ParadoxModuleError` handler ran, manifest fetches).
-/

/-- The three exception classes caught by every operation in `device.py`. -/
inductive RemoteError where
  | transport
  | authorization
  | unclassified
deriving DecidableEq, Repr

/-- `const.py`: `MANUFACTURER = 'Paradox, Inc'`. -/
def MANUFACTURER : String := "Paradox, Inc"

/-- `models.py` `DeviceInfo` dataclass. -/
structure DeviceInfo where
  manufacturer : String
  model : String
  name : String
  sw_version : String
  serial : String
  mac : Option String
deriving DecidableEq, Repr

/-- The data a successful `device.login(usercode, username)` call yields in
`async_setup`: the adapter's `version`/`serial` properties and the
`ParadoxCP` entries of the returned dict. -/
structure LoginData where
  version : String
  serial : String
  cpVersion : String
  cpRevision : String
  cpSerialNo : String
deriving DecidableEq, Repr

/-- The configuration-entry fields `async_setup` reads (`self.model`,
`self.name`). -/
structure Config where
  model : String
  name : String
deriving DecidableEq, Repr

/-- The mutable attributes of a `ParadoxDevice` instance. -/
structure DeviceState where
  available : Bool
  device_info : Option DeviceInfo
  panel_info : Option DeviceInfo
  last_stream_source : Option String
deriving DecidableEq, Repr

/-- Class-attribute initial values of `ParadoxDevice`:
`_available = False`, `_device_info = None`, `_panel_info = None`,
`_last_stream_source = None`. -/
def initState : DeviceState :=
  { available := false, device_info := none, panel_info := none,
    last_stream_source := none }

/-- Record of the remote calls an executed path performed. -/
structure StepLog where
  loginAttempts : Nat
  loginOk : Bool
  authFail : Bool
  manifestFetches : Nat
deriving DecidableEq, Repr

/-- Log of a path that performed no remote call beyond the operation's own
endpoint and hit no `ParadoxModuleError` handler. -/
def noLog : StepLog :=
  { loginAttempts := 0, loginOk := false, authFail := false,
    manifestFetches := 0 }

/-- `ParadoxDevice.async_setup`: constructs the adapter, logs in, and on
success populates both `DeviceInfo` records and sets `_available = True`.
`ClientConnectionError`/`TimeoutError` and `NotImplementedError` are logged
and fall through to `return True`; `ParadoxModuleError` returns `False`.
No exception handler assigns `_available`. -/
def async_setup (cfg : Config) (login : Except RemoteError LoginData)
    (st : DeviceState) : Bool × DeviceState × StepLog :=
  match login with
  | Except.ok data =>
      (true,
        { st with
          device_info := some
            { manufacturer := MANUFACTURER, model := cfg.model,
              name := cfg.name, sw_version := data.version,
              serial := data.serial, mac := none },
          panel_info := some
            { manufacturer := MANUFACTURER, model := "",
              name := "Paradox Control Panel",
              sw_version := data.cpVersion ++ "." ++ data.cpRevision,
              serial := data.cpSerialNo, mac := none },
          available := true },
        { loginAttempts := 1, loginOk := true, authFail := false,
          manifestFetches := 0 })
  | Except.error RemoteError.transport =>
      (true, st,
        { loginAttempts := 1, loginOk := false, authFail := false,
          manifestFetches := 0 })
  | Except.error RemoteError.authorization =>
      (false, st,
        { loginAttempts := 1, loginOk := false, authFail := true,
          manifestFetches := 0 })
  | Except.error RemoteError.unclassified =>
      (true, st,
        { loginAttempts := 1, loginOk := false, authFail := false,
          manifestFetches := 0 })

/-- C1: `async_setup` applies the three-way failure classification: a
transport/timeout failure returns success with `available == false`, an
authorization failure returns a hard failure with `available == false`,
and an unclassified failure returns success with `available == false`
(run started on a freshly constructed device, as in `async_setup_entry`). -/
theorem setup_three_way_classification (cfg : Config) :
    ((async_setup cfg (Except.error RemoteError.transport) initState).1 = true ∧
      ((async_setup cfg (Except.error RemoteError.transport) initState).2.1).available = false) ∧
    ((async_setup cfg (Except.error RemoteError.authorization) initState).1 = false ∧
      ((async_setup cfg (Except.error RemoteError.authorization) initState).2.1).available = false) ∧
    ((async_setup cfg (Except.error RemoteError.unclassified) initState).1 = true ∧
      ((async_setup cfg (Except.error RemoteError.unclassified) initState).2.1).available = false) := by
  refine ⟨⟨rfl, rfl⟩, ⟨rfl, rfl⟩, ⟨rfl, rfl⟩⟩

/-- A parsed `m3u8` variant playlist entry: `playlist.stream_info.bandwidth`
and `playlist.uri`. -/
structure Playlist where
  bandwidth : Nat
  uri : String
deriving DecidableEq, Repr

/-- `const.py`: `CAMERA_PROFILES = ['Low', 'Normal', 'High']`. -/
inductive CameraProfile where
  | Low
  | Normal
  | High
deriving DecidableEq, Repr

/-- `const.py`: `CAMERA_BANDWIDTH = {'Low': 128000, 'Normal': 256000,
'High': 512000}`. -/
def CAMERA_BANDWIDTH : CameraProfile → Nat
  | CameraProfile.Low => 128000
  | CameraProfile.Normal => 256000
  | CameraProfile.High => 512000

/-- `const.py`: `DEFAULT_CAMERA_PROFILE = 'Normal'`. -/
def DEFAULT_CAMERA_PROFILE : CameraProfile := CameraProfile.Normal

/-- The dict built by `ParadoxAlarmEntity._send_alarm_command`:
`{"AreaID": ..., "AreaCommand": ..., "ForceZones": False}`. -/
structure AreaCommandPayload where
  AreaID : Nat
  AreaCommand : Nat
  ForceZones : Bool
deriving DecidableEq, Repr

/-- `pingstatus()` payload, modelled as the raw dict the module returns. -/
def StatusPayload : Type := List (String × Int)

instance : DecidableEq StatusPayload := by
  unfold StatusPayload
  infer_instance

/-- Outcomes the transport client (`pypdxapi` adapter) would produce for
each endpoint during one operation. `loginResult` is the outcome of the
re-login `await self.device.login(username=..., usercode=...)` performed by
the post-setup operations when `is_authenticated()` is false. -/
structure Env where
  isAuthenticated : Bool
  loginResult : Except RemoteError Unit
  vodResult : CameraProfile → Except RemoteError (List Playlist)
  pingstatusResult : Except RemoteError StatusPayload
  areacontrolResult : List AreaCommandPayload → Except RemoteError Unit
  rodResult : Nat → Except RemoteError Int

/-- Body of `async_stream_source` after the authentication check: if
`_last_stream_source` is not `None` it is returned unchanged; otherwise the
`vod` manifest is fetched, parsed, and the first playlist whose
`stream_info.bandwidth` equals `CAMERA_BANDWIDTH[channel_type]` is cached
and returned.  The exception handlers of `async_stream_source` apply:
transport sets `_last_stream_source = None` and returns `''`,
`ParadoxModuleError` sets `_available = False` and returns `''`,
`NotImplementedError` returns `''`. -/
def streamResolve (profile : CameraProfile) (env : Env) (st : DeviceState)
    (log : StepLog) : Option String × DeviceState × StepLog :=
  match st.last_stream_source with
  | some uri => (some uri, st, log)
  | none =>
      match env.vodResult profile with
      | Except.ok playlists =>
          match playlists.find? (fun p => p.bandwidth == CAMERA_BANDWIDTH profile) with
          | some p =>
              (some p.uri, { st with last_stream_source := some p.uri },
                { log with manifestFetches := log.manifestFetches + 1 })
          | none =>
              (none, st,
                { log with manifestFetches := log.manifestFetches + 1 })
      | Except.error RemoteError.transport =>
          (some "", { st with last_stream_source := none },
            { log with manifestFetches := log.manifestFetches + 1 })
      | Except.error RemoteError.authorization =>
          (some "", { st with available := false },
            { log with authFail := true,
                       manifestFetches := log.manifestFetches + 1 })
      | Except.error RemoteError.unclassified =>
          (some "", st,
            { log with manifestFetches := log.manifestFetches + 1 })

/-- `ParadoxDevice.async_stream_source`: if `is_authenticated()` is false,
`_last_stream_source` is set to `None` and a login is attempted inside the
same `try`; then the cached-or-resolve body `streamResolve` runs.  The
Python `None` return is `none`, a string `s` is `some s` (so the failure
value `''` is `some ""`). -/
def async_stream_source (profile : CameraProfile) (env : Env)
    (st : DeviceState) : Option String × DeviceState × StepLog :=
  if env.isAuthenticated then
    streamResolve profile env st noLog
  else
    match env.loginResult with
    | Except.ok _ =>
        streamResolve profile env { st with last_stream_source := none }
          { loginAttempts := 1, loginOk := true, authFail := false,
            manifestFetches := 0 }
    | Except.error RemoteError.transport =>
        (some "", { st with last_stream_source := none },
          { loginAttempts := 1, loginOk := false, authFail := false,
            manifestFetches := 0 })
    | Except.error RemoteError.authorization =>
        (some "", { st with last_stream_source := none, available := false },
          { loginAttempts := 1, loginOk := false, authFail := true,
            manifestFetches := 0 })
    | Except.error RemoteError.unclassified =>
        (some "", { st with last_stream_source := none },
          { loginAttempts := 1, loginOk := false, authFail := false,
            manifestFetches := 0 })

/-- Result of `async_update_alarm_panel`: either the `pingstatus()` dict or
the `UpdateFailed` raised by an exception handler, wrapping its cause. -/
inductive PollResult where
  | ok (payload : StatusPayload)
  | updateFailed (cause : RemoteError)
deriving DecidableEq

/-- `ParadoxDevice.async_update_alarm_panel`: returns `pingstatus()`
directly; no `is_authenticated()` check and no login call appear in its
body.  Transport and unclassified failures raise `UpdateFailed` leaving the
state unchanged; `ParadoxModuleError` sets `_available = False` then raises
`UpdateFailed`. -/
def async_update_alarm_panel (env : Env) (st : DeviceState) :
    PollResult × DeviceState × StepLog :=
  match env.pingstatusResult with
  | Except.ok payload => (PollResult.ok payload, st, noLog)
  | Except.error RemoteError.transport =>
      (PollResult.updateFailed RemoteError.transport, st, noLog)
  | Except.error RemoteError.authorization =>
      (PollResult.updateFailed RemoteError.authorization,
        { st with available := false },
        { loginAttempts := 0, loginOk := false, authFail := true,
          manifestFetches := 0 })
  | Except.error RemoteError.unclassified =>
      (PollResult.updateFailed RemoteError.unclassified, st, noLog)

/-- Submission part of `async_areacontrol`: `await
self.device.areacontrol(area_commands)` then `return True`, under the same
exception handlers (transport and unclassified return `False`,
`ParadoxModuleError` sets `_available = False` and returns `False`). -/
def areacontrolSubmit (cmds : List AreaCommandPayload) (env : Env)
    (st : DeviceState) (log : StepLog) : Bool × DeviceState × StepLog :=
  match env.areacontrolResult cmds with
  | Except.ok _ => (true, st, log)
  | Except.error RemoteError.transport => (false, st, log)
  | Except.error RemoteError.authorization =>
      (false, { st with available := false }, { log with authFail := true })
  | Except.error RemoteError.unclassified => (false, st, log)

/-- `ParadoxDevice.async_areacontrol`: re-login when not authenticated,
then submit the area commands; any caught exception yields `False`. -/
def async_areacontrol (cmds : List AreaCommandPayload) (env : Env)
    (st : DeviceState) : Bool × DeviceState × StepLog :=
  if env.isAuthenticated then
    areacontrolSubmit cmds env st noLog
  else
    match env.loginResult with
    | Except.ok _ =>
        areacontrolSubmit cmds env st
          { loginAttempts := 1, loginOk := true, authFail := false,
            manifestFetches := 0 }
    | Except.error RemoteError.transport =>
        (false, st,
          { loginAttempts := 1, loginOk := false, authFail := false,
            manifestFetches := 0 })
    | Except.error RemoteError.authorization =>
        (false, { st with available := false },
          { loginAttempts := 1, loginOk := false, authFail := true,
            manifestFetches := 0 })
    | Except.error RemoteError.unclassified =>
        (false, st,
          { loginAttempts := 1, loginOk := false, authFail := false,
            manifestFetches := 0 })

/-- Submission part of `async_rod`: `data = await self.device.rod(action=state)`
then `return data['ResultCode'] == 33816578`, under the same exception
handlers. -/
def rodSubmit (state : Nat) (env : Env) (st : DeviceState) (log : StepLog) :
    Bool × DeviceState × StepLog :=
  match env.rodResult state with
  | Except.ok code => (code == 33816578, st, log)
  | Except.error RemoteError.transport => (false, st, log)
  | Except.error RemoteError.authorization =>
      (false, { st with available := false }, { log with authFail := true })
  | Except.error RemoteError.unclassified => (false, st, log)

/-- `ParadoxDevice.async_rod`: re-login when not authenticated, then submit
the record-on-demand action; any caught exception yields `False`. -/
def async_rod (state : Nat) (env : Env) (st : DeviceState) :
    Bool × DeviceState × StepLog :=
  if env.isAuthenticated then
    rodSubmit state env st noLog
  else
    match env.loginResult with
    | Except.ok _ =>
        rodSubmit state env st
          { loginAttempts := 1, loginOk := true, authFail := false,
            manifestFetches := 0 }
    | Except.error RemoteError.transport =>
        (false, st,
          { loginAttempts := 1, loginOk := false, authFail := false,
            manifestFetches := 0 })
    | Except.error RemoteError.authorization =>
        (false, { st with available := false },
          { loginAttempts := 1, loginOk := false, authFail := true,
            manifestFetches := 0 })
    | Except.error RemoteError.unclassified =>
        (false, st,
          { loginAttempts := 1, loginOk := false, authFail := false,
            manifestFetches := 0 })

/-- `ParadoxCameraEntity.async_enable_recording`: `async_rod(3)`. -/
def async_enable_recording (env : Env) (st : DeviceState) :
    Bool × DeviceState × StepLog :=
  async_rod 3 env st

/-- `ParadoxCameraEntity.async_disable_recording`: `async_rod(4)`. -/
def async_disable_recording (env : Env) (st : DeviceState) :
    Bool × DeviceState × StepLog :=
  async_rod 4 env st

/-- The payload `ParadoxAlarmEntity._send_alarm_command(command)` builds
for its partition and passes (in a singleton list) to
`async_areacontrol`. -/
def send_alarm_command_payload (partition_id : Nat) (command : Nat) :
    AreaCommandPayload :=
  { AreaID := partition_id, AreaCommand := command, ForceZones := false }

/-- `ParadoxAlarmEntity.async_alarm_disarm`: `_send_alarm_command(6)`. -/
def async_alarm_disarm_payload (partition_id : Nat) : AreaCommandPayload :=
  send_alarm_command_payload partition_id 6

/-- `ParadoxAlarmEntity.async_alarm_arm_home`: `_send_alarm_command(3)`. -/
def async_alarm_arm_home_payload (partition_id : Nat) : AreaCommandPayload :=
  send_alarm_command_payload partition_id 3

/-- `ParadoxAlarmEntity.async_alarm_arm_away`: `_send_alarm_command(2)`. -/
def async_alarm_arm_away_payload (partition_id : Nat) : AreaCommandPayload :=
  send_alarm_command_payload partition_id 2

/-- A post-setup operation on a `ParadoxDevice`, together with the
transport outcomes (`Env`) its remote calls would produce.  `async_setup`
is not a post-setup operation: `async_setup_entry` in `__init__.py`
constructs a fresh `ParadoxDevice` and calls `async_setup` exactly once
before any entity can invoke the other operations. -/
inductive PostOp where
  | streamSource (profile : CameraProfile) (env : Env)
  | updatePanel (env : Env)
  | areaControl (cmds : List AreaCommandPayload) (env : Env)
  | rod (state : Nat) (env : Env)

/-- State transition and call log of one post-setup operation. -/
def postStep (st : DeviceState) : PostOp → DeviceState × StepLog
  | PostOp.streamSource profile env =>
      ((async_stream_source profile env st).2.1,
        (async_stream_source profile env st).2.2)
  | PostOp.updatePanel env =>
      ((async_update_alarm_panel env st).2.1,
        (async_update_alarm_panel env st).2.2)
  | PostOp.areaControl cmds env =>
      ((async_areacontrol cmds env st).2.1,
        (async_areacontrol cmds env st).2.2)
  | PostOp.rod state env =>
      ((async_rod state env st).2.1, (async_rod state env st).2.2)

/-- Run a sequence of post-setup operations from a state. -/
def runPost : DeviceState → List PostOp → DeviceState
  | st, [] => st
  | st, op :: ops => runPost (postStep st op).1 ops

/-- Call logs of a sequence of post-setup operations. -/
def runPostLogs : DeviceState → List PostOp → List StepLog
  | _, [] => []
  | st, op :: ops => (postStep st op).2 :: runPostLogs (postStep st op).1 ops

/-- Device state right after `async_setup` ran on a freshly constructed
`ParadoxDevice` (as `async_setup_entry` does). -/
def setupState (cfg : Config) (login : Except RemoteError LoginData) :
    DeviceState :=
  (async_setup cfg login initState).2.1

/-- A full device lifetime: construction, one `async_setup`, then any
sequence of post-setup operations. -/
def deviceRun (cfg : Config) (login : Except RemoteError LoginData)
    (ops : List PostOp) : DeviceState :=
  runPost (setupState cfg login) ops

/-- Call logs of the post-setup part of a device lifetime. -/
def deviceRunLogs (cfg : Config) (login : Except RemoteError LoginData)
    (ops : List PostOp) : List StepLog :=
  runPostLogs (setupState cfg login) ops

/-! ### Helper lemmas -/

lemma find_bandwidth_first (bw : Nat) (p : Playlist) (pre post : List Playlist)
    (hpre : ∀ q ∈ pre, q.bandwidth ≠ bw) (hp : p.bandwidth = bw) :
    (pre ++ p :: post).find? (fun q => q.bandwidth == bw) = some p := by
  induction pre with
  | nil =>
      simp only [List.nil_append]
      rw [List.find?_cons_of_pos]
      simp [hp]
  | cons q pre ih =>
      rw [List.cons_append, List.find?_cons_of_neg]
      · exact ih fun r hr => hpre r (List.mem_cons_of_mem q hr)
      · simp [hpre q (List.mem_cons_self q pre)]

lemma find_bandwidth_none (bw : Nat) (l : List Playlist)
    (h : ∀ q ∈ l, q.bandwidth ≠ bw) :
    l.find? (fun q => q.bandwidth == bw) = none := by
  rw [List.find?_eq_none]
  intro q hq
  simp [h q hq]

lemma streamResolve_cached (profile : CameraProfile) (env : Env)
    (st : DeviceState) (log : StepLog) (uri : String)
    (h : st.last_stream_source = some uri) :
    streamResolve profile env st log = (some uri, st, log) := by
  unfold streamResolve
  rw [h]

lemma streamResolve_available_mono (profile : CameraProfile) (env : Env)
    (st : DeviceState) (log : StepLog)
    (h : ((streamResolve profile env st log).2.1).available = true) :
    st.available = true := by
  unfold streamResolve at h
  cases h1 : st.last_stream_source with
  | some uri => simp_all
  | none =>
      cases h2 : env.vodResult profile with
      | ok pls =>
          cases h3 : pls.find? (fun q => q.bandwidth == CAMERA_BANDWIDTH profile) with
          | some p => simp_all
          | none => simp_all
      | error e => cases e <;> simp_all

lemma streamResolve_info (profile : CameraProfile) (env : Env)
    (st : DeviceState) (log : StepLog) :
    ((streamResolve profile env st log).2.1).device_info = st.device_info ∧
    ((streamResolve profile env st log).2.1).panel_info = st.panel_info := by
  unfold streamResolve
  cases h1 : st.last_stream_source with
  | some uri => simp_all
  | none =>
      cases h2 : env.vodResult profile with
      | ok pls =>
          cases h3 : pls.find? (fun q => q.bandwidth == CAMERA_BANDWIDTH profile) with
          | some p => simp only [h3]; simp
          | none => simp only [h3]; simp
      | error e => cases e <;> simp_all

lemma streamResolve_authFail (profile : CameraProfile) (env : Env)
    (st : DeviceState) (log : StepLog) (hlog : log.authFail = false)
    (h : ((streamResolve profile env st log).2.2).authFail = true) :
    ((streamResolve profile env st log).2.1).available = false := by
  unfold streamResolve at h ⊢
  cases h1 : st.last_stream_source with
  | some uri => simp_all
  | none =>
      cases h2 : env.vodResult profile with
      | ok pls =>
          cases h3 : pls.find? (fun q => q.bandwidth == CAMERA_BANDWIDTH profile) with
          | some p => simp_all
          | none => simp_all
      | error e => cases e <;> simp_all

lemma stream_available_mono (profile : CameraProfile) (env : Env)
    (st : DeviceState)
    (h : ((async_stream_source profile env st).2.1).available = true) :
    st.available = true := by
  unfold async_stream_source at h
  cases h0 : env.isAuthenticated with
  | true =>
      simp only [h0, if_true] at h
      exact streamResolve_available_mono profile env st noLog h
  | false =>
      simp only [h0, Bool.false_eq_true, if_false] at h
      cases hl : env.loginResult with
      | ok u =>
          simp only [hl] at h
          have := streamResolve_available_mono profile env
            { st with last_stream_source := none } _ h
          simpa using this
      | error e =>
          simp only [hl] at h
          cases e <;> simp_all

lemma stream_info (profile : CameraProfile) (env : Env) (st : DeviceState) :
    ((async_stream_source profile env st).2.1).device_info = st.device_info ∧
    ((async_stream_source profile env st).2.1).panel_info = st.panel_info := by
  unfold async_stream_source
  cases h0 : env.isAuthenticated with
  | true =>
      simp only [h0, if_true]
      exact streamResolve_info profile env st noLog
  | false =>
      simp only [h0, Bool.false_eq_true, if_false]
      cases hl : env.loginResult with
      | ok u =>
          have := streamResolve_info profile env
            { st with last_stream_source := none }
            { loginAttempts := 1, loginOk := true, authFail := false,
              manifestFetches := 0 }
          simpa using this
      | error e => cases e <;> simp

lemma stream_authFail (profile : CameraProfile) (env : Env) (st : DeviceState)
    (h : ((async_stream_source profile env st).2.2).authFail = true) :
    ((async_stream_source profile env st).2.1).available = false := by
  unfold async_stream_source at h ⊢
  cases h0 : env.isAuthenticated with
  | true =>
      simp only [h0, if_true] at h ⊢
      exact streamResolve_authFail profile env st noLog rfl h
  | false =>
      simp only [h0, Bool.false_eq_true, if_false] at h ⊢
      cases hl : env.loginResult with
      | ok u =>
          simp only [hl] at h ⊢
          exact streamResolve_authFail profile env
            { st with last_stream_source := none } _ rfl h
      | error e =>
          simp only [hl] at h ⊢
          cases e <;> simp_all

lemma areacontrolSubmit_cases (cmds : List AreaCommandPayload) (env : Env)
    (st : DeviceState) (log : StepLog) :
    (((areacontrolSubmit cmds env st log).2.1).available = true →
      st.available = true) ∧
    ((areacontrolSubmit cmds env st log).2.1).device_info = st.device_info ∧
    ((areacontrolSubmit cmds env st log).2.1).panel_info = st.panel_info ∧
    (log.authFail = false →
      ((areacontrolSubmit cmds env st log).2.2).authFail = true →
      ((areacontrolSubmit cmds env st log).2.1).available = false) := by
  unfold areacontrolSubmit
  cases h1 : env.areacontrolResult cmds with
  | ok u => simp_all
  | error e => cases e <;> simp_all

lemma area_available_mono (cmds : List AreaCommandPayload) (env : Env)
    (st : DeviceState)
    (h : ((async_areacontrol cmds env st).2.1).available = true) :
    st.available = true := by
  unfold async_areacontrol at h
  cases h0 : env.isAuthenticated with
  | true =>
      simp only [h0, if_true] at h
      exact (areacontrolSubmit_cases cmds env st noLog).1 h
  | false =>
      simp only [h0, Bool.false_eq_true, if_false] at h
      cases hl : env.loginResult with
      | ok u =>
          simp only [hl] at h
          exact (areacontrolSubmit_cases cmds env st _).1 h
      | error e =>
          simp only [hl] at h
          cases e <;> simp_all

lemma area_info (cmds : List AreaCommandPayload) (env : Env)
    (st : DeviceState) :
    ((async_areacontrol cmds env st).2.1).device_info = st.device_info ∧
    ((async_areacontrol cmds env st).2.1).panel_info = st.panel_info := by
  unfold async_areacontrol
  cases h0 : env.isAuthenticated with
  | true =>
      simp only [h0, if_true]
      exact ⟨(areacontrolSubmit_cases cmds env st noLog).2.1,
        (areacontrolSubmit_cases cmds env st noLog).2.2.1⟩
  | false =>
      simp only [h0, Bool.false_eq_true, if_false]
      cases hl : env.loginResult with
      | ok u =>
          exact ⟨(areacontrolSubmit_cases cmds env st _).2.1,
            (areacontrolSubmit_cases cmds env st _).2.2.1⟩
      | error e => cases e <;> simp

lemma area_authFail (cmds : List AreaCommandPayload) (env : Env)
    (st : DeviceState)
    (h : ((async_areacontrol cmds env st).2.2).authFail = true) :
    ((async_areacontrol cmds env st).2.1).available = false := by
  unfold async_areacontrol at h ⊢
  cases h0 : env.isAuthenticated with
  | true =>
      simp only [h0, if_true] at h ⊢
      exact (areacontrolSubmit_cases cmds env st noLog).2.2.2 rfl h
  | false =>
      simp only [h0, Bool.false_eq_true, if_false] at h ⊢
      cases hl : env.loginResult with
      | ok u =>
          simp only [hl] at h ⊢
          exact (areacontrolSubmit_cases cmds env st _).2.2.2 rfl h
      | error e =>
          simp only [hl] at h ⊢
          cases e <;> simp_all

lemma rodSubmit_cases (state : Nat) (env : Env) (st : DeviceState)
    (log : StepLog) :
    (((rodSubmit state env st log).2.1).available = true →
      st.available = true) ∧
    ((rodSubmit state env st log).2.1).device_info = st.device_info ∧
    ((rodSubmit state env st log).2.1).panel_info = st.panel_info ∧
    (log.authFail = false →
      ((rodSubmit state env st log).2.2).authFail = true →
      ((rodSubmit state env st log).2.1).available = false) := by
  unfold rodSubmit
  cases h1 : env.rodResult state with
  | ok code => simp_all
  | error e => cases e <;> simp_all

lemma rod_available_mono (state : Nat) (env : Env) (st : DeviceState)
    (h : ((async_rod state env st).2.1).available = true) :
    st.available = true := by
  unfold async_rod at h
  cases h0 : env.isAuthenticated with
  | true =>
      simp only [h0, if_true] at h
      exact (rodSubmit_cases state env st noLog).1 h
  | false =>
      simp only [h0, Bool.false_eq_true, if_false] at h
      cases hl : env.loginResult with
      | ok u =>
          simp only [hl] at h
          exact (rodSubmit_cases state env st _).1 h
      | error e =>
          simp only [hl] at h
          cases e <;> simp_all

lemma rod_info (state : Nat) (env : Env) (st : DeviceState) :
    ((async_rod state env st).2.1).device_info = st.device_info ∧
    ((async_rod state env st).2.1).panel_info = st.panel_info := by
  unfold async_rod
  cases h0 : env.isAuthenticated with
  | true =>
      simp only [h0, if_true]
      exact ⟨(rodSubmit_cases state env st noLog).2.1,
        (rodSubmit_cases state env st noLog).2.2.1⟩
  | false =>
      simp only [h0, Bool.false_eq_true, if_false]
      cases hl : env.loginResult with
      | ok u =>
          exact ⟨(rodSubmit_cases state env st _).2.1,
            (rodSubmit_cases state env st _).2.2.1⟩
      | error e => cases e <;> simp

lemma rod_authFail (state : Nat) (env : Env) (st : DeviceState)
    (h : ((async_rod state env st).2.2).authFail = true) :
    ((async_rod state env st).2.1).available = false := by
  unfold async_rod at h ⊢
  cases h0 : env.isAuthenticated with
  | true =>
      simp only [h0, if_true] at h ⊢
      exact (rodSubmit_cases state env st noLog).2.2.2 rfl h
  | false =>
      simp only [h0, Bool.false_eq_true, if_false] at h ⊢
      cases hl : env.loginResult with
      | ok u =>
          simp only [hl] at h ⊢
          exact (rodSubmit_cases state env st _).2.2.2 rfl h
      | error e =>
          simp only [hl] at h ⊢
          cases e <;> simp_all

lemma update_cases (env : Env) (st : DeviceState) :
    (((async_update_alarm_panel env st).2.1).available = true →
      st.available = true) ∧
    ((async_update_alarm_panel env st).2.1).device_info = st.device_info ∧
    ((async_update_alarm_panel env st).2.1).panel_info = st.panel_info ∧
    (((async_update_alarm_panel env st).2.2).authFail = true →
      ((async_update_alarm_panel env st).2.1).available = false) := by
  unfold async_update_alarm_panel
  cases h1 : env.pingstatusResult with
  | ok payload => simp_all [noLog]
  | error e => cases e <;> simp_all [noLog]

lemma postStep_available_mono (st : DeviceState) (op : PostOp)
    (h : ((postStep st op).1).available = true) : st.available = true := by
  cases op with
  | streamSource profile env => exact stream_available_mono profile env st h
  | updatePanel env => exact (update_cases env st).1 h
  | areaControl cmds env => exact area_available_mono cmds env st h
  | rod state env => exact rod_available_mono state env st h

lemma postStep_info (st : DeviceState) (op : PostOp) :
    ((postStep st op).1).device_info = st.device_info ∧
    ((postStep st op).1).panel_info = st.panel_info := by
  cases op with
  | streamSource profile env => exact stream_info profile env st
  | updatePanel env => exact ⟨(update_cases env st).2.1, (update_cases env st).2.2.1⟩
  | areaControl cmds env => exact area_info cmds env st
  | rod state env => exact rod_info state env st

lemma postStep_authFail (st : DeviceState) (op : PostOp)
    (h : ((postStep st op).2).authFail = true) :
    ((postStep st op).1).available = false := by
  cases op with
  | streamSource profile env => exact stream_authFail profile env st h
  | updatePanel env => exact (update_cases env st).2.2.2 h
  | areaControl cmds env => exact area_authFail cmds env st h
  | rod state env => exact rod_authFail state env st h

lemma runPost_available_inv (ops : List PostOp) :
    ∀ st : DeviceState, (runPost st ops).available = true →
      st.available = true ∧ ∀ l ∈ runPostLogs st ops, l.authFail = false := by
  induction ops with
  | nil => intro st h; exact ⟨h, by simp [runPostLogs]⟩
  | cons op ops ih =>
      intro st h
      rw [runPost] at h
      obtain ⟨hmid, hlogs⟩ := ih (postStep st op).1 h
      have hhd : ((postStep st op).2).authFail = false := by
        by_contra hc
        have := postStep_authFail st op (by simpa using hc)
        rw [this] at hmid
        exact Bool.false_ne_true hmid
      refine ⟨postStep_available_mono st op hmid, ?_⟩
      intro l hl
      rw [runPostLogs] at hl
      rcases List.mem_cons.mp hl with h1 | h2
      · rw [h1]; exact hhd
      · exact hlogs l h2

lemma runPost_info (ops : List PostOp) :
    ∀ st : DeviceState, (runPost st ops).device_info = st.device_info ∧
      (runPost st ops).panel_info = st.panel_info := by
  induction ops with
  | nil => intro st; exact ⟨rfl, rfl⟩
  | cons op ops ih =>
      intro st
      rw [runPost]
      obtain ⟨h1, h2⟩ := ih (postStep st op).1
      obtain ⟨h3, h4⟩ := postStep_info st op
      exact ⟨h1.trans h3, h2.trans h4⟩

lemma streamResolve_fetch_uncached (profile : CameraProfile) (env : Env)
    (st : DeviceState) (log : StepLog) (h : st.last_stream_source = none) :
    ((streamResolve profile env st log).2.2).manifestFetches =
      log.manifestFetches + 1 := by
  unfold streamResolve
  rw [h]
  cases h2 : env.vodResult profile with
  | ok pls =>
      cases h3 : pls.find? (fun q => q.bandwidth == CAMERA_BANDWIDTH profile) with
      | some p => simp only [h3]
      | none => simp only [h3]
  | error e => cases e <;> simp

/-! ### Concrete data used by witnesses and counterexamples -/

def testConfig : Config := { model := "HD77", name := "Front Door" }

def testLoginData : LoginData :=
  { version := "1.25.4", serial := "A1B2C3", cpVersion := "4",
    cpRevision := "2", cpSerialNo := "D4E5F6" }

def testManifest : List Playlist :=
  [{ bandwidth := 128000, uri := "low.m3u8" },
   { bandwidth := 256000, uri := "norm.m3u8" },
   { bandwidth := 512000, uri := "high.m3u8" }]

def envAllOk : Env :=
  { isAuthenticated := true, loginResult := Except.ok (),
    vodResult := fun _ => Except.ok testManifest,
    pingstatusResult := Except.ok [("Software", 1)],
    areacontrolResult := fun _ => Except.ok (),
    rodResult := fun _ => Except.ok 33816578 }

def envNoMatch : Env :=
  { isAuthenticated := true, loginResult := Except.ok (),
    vodResult := fun _ => Except.ok
      [{ bandwidth := 128000, uri := "low.m3u8" },
       { bandwidth := 256000, uri := "norm.m3u8" }],
    pingstatusResult := Except.ok [],
    areacontrolResult := fun _ => Except.ok (),
    rodResult := fun _ => Except.ok 0 }

def envStaleAuthFail : Env :=
  { isAuthenticated := false,
    loginResult := Except.error RemoteError.authorization,
    vodResult := fun _ => Except.error RemoteError.authorization,
    pingstatusResult := Except.error RemoteError.authorization,
    areacontrolResult := fun _ => Except.error RemoteError.authorization,
    rodResult := fun _ => Except.error RemoteError.authorization }

def cachedState : DeviceState :=
  { available := true, device_info := none, panel_info := none,
    last_stream_source := some "cached.m3u8" }

/-! ### Claim theorems -/

/-- C2: stream resolution selects the first manifest variant whose
bandwidth exactly equals the configured tier's bandwidth (Low = 128000,
Normal = 256000, High = 512000) and returns its URI; on the three-variant
example manifest with tier Normal it returns "norm.m3u8"; when no variant
matches exactly, resolution returns an absent result, not an error. -/
theorem stream_exact_bandwidth_selection :
    (CAMERA_BANDWIDTH CameraProfile.Low = 128000 ∧
      CAMERA_BANDWIDTH CameraProfile.Normal = 256000 ∧
      CAMERA_BANDWIDTH CameraProfile.High = 512000) ∧
    (∀ (profile : CameraProfile) (env : Env) (st : DeviceState)
        (pre post : List Playlist) (p : Playlist),
      env.isAuthenticated = true →
      st.last_stream_source = none →
      env.vodResult profile = Except.ok (pre ++ p :: post) →
      (∀ q ∈ pre, q.bandwidth ≠ CAMERA_BANDWIDTH profile) →
      p.bandwidth = CAMERA_BANDWIDTH profile →
      (async_stream_source profile env st).1 = some p.uri) ∧
    (∀ (env : Env) (st : DeviceState),
      env.isAuthenticated = true →
      st.last_stream_source = none →
      env.vodResult CameraProfile.Normal = Except.ok testManifest →
      (async_stream_source CameraProfile.Normal env st).1 = some "norm.m3u8") ∧
    (∀ (profile : CameraProfile) (env : Env) (st : DeviceState)
        (playlists : List Playlist),
      env.isAuthenticated = true →
      st.last_stream_source = none →
      env.vodResult profile = Except.ok playlists →
      (∀ q ∈ playlists, q.bandwidth ≠ CAMERA_BANDWIDTH profile) →
      (async_stream_source profile env st).1 = none) := by
  have main : ∀ (profile : CameraProfile) (env : Env) (st : DeviceState)
      (pre post : List Playlist) (p : Playlist),
      env.isAuthenticated = true →
      st.last_stream_source = none →
      env.vodResult profile = Except.ok (pre ++ p :: post) →
      (∀ q ∈ pre, q.bandwidth ≠ CAMERA_BANDWIDTH profile) →
      p.bandwidth = CAMERA_BANDWIDTH profile →
      (async_stream_source profile env st).1 = some p.uri := by
    intro profile env st pre post p h0 h1 h2 h3 h4
    unfold async_stream_source
    simp only [h0, if_true]
    unfold streamResolve
    simp only [h1, h2,
      find_bandwidth_first (CAMERA_BANDWIDTH profile) p pre post h3 h4]
  refine ⟨⟨rfl, rfl, rfl⟩, main, ?_, ?_⟩
  · intro env st h0 h1 h2
    have := main CameraProfile.Normal env st
      [{ bandwidth := 128000, uri := "low.m3u8" }]
      [{ bandwidth := 512000, uri := "high.m3u8" }]
      { bandwidth := 256000, uri := "norm.m3u8" }
      h0 h1 h2 (by decide) (by decide)
    simpa using this
  · intro profile env st playlists h0 h1 h2 h3
    unfold async_stream_source
    simp only [h0, if_true]
    unfold streamResolve
    simp only [h1, h2,
      find_bandwidth_none (CAMERA_BANDWIDTH profile) playlists h3]

/-- C2 witness: on the example manifest with tier Normal the resolution
returns "norm.m3u8". -/
theorem stream_exact_bandwidth_selection_witness :
    (async_stream_source CameraProfile.Normal envAllOk initState).1 =
      some "norm.m3u8" :=
  stream_exact_bandwidth_selection.2.2.1 envAllOk initState rfl rfl rfl

/-- C3: `async_rod` returns `true` if and only if the module's reply has
result code 33816578 (whenever the submission is reached: the session is
authenticated or the re-login succeeds); `async_enable_recording` maps to
action 3 and `async_disable_recording` to action 4. -/
theorem rod_result_code_criterion :
    (∀ (action : Nat) (env : Env) (st : DeviceState) (code : Int),
      (env.isAuthenticated = true ∨ env.loginResult = Except.ok ()) →
      env.rodResult action = Except.ok code →
      ((async_rod action env st).1 = true ↔ code = 33816578)) ∧
    (∀ (env : Env) (st : DeviceState),
      async_enable_recording env st = async_rod 3 env st) ∧
    (∀ (env : Env) (st : DeviceState),
      async_disable_recording env st = async_rod 4 env st) := by
  refine ⟨?_, fun env st => rfl, fun env st => rfl⟩
  intro action env st code hpre hcode
  cases h0 : env.isAuthenticated with
  | true =>
      unfold async_rod
      simp only [h0, if_true]
      unfold rodSubmit
      simp only [hcode]
      exact beq_iff_eq
  | false =>
      rcases hpre with ha | hl
      · rw [h0] at ha; exact absurd ha (by simp)
      · unfold async_rod
        simp only [h0, Bool.false_eq_true, if_false, hl]
        unfold rodSubmit
        simp only [hcode]
        exact beq_iff_eq

/-- C3 witness: with an authenticated session and reply code 33816578,
starting record-on-demand returns true. -/
theorem rod_result_code_criterion_witness :
    (async_rod 3 envAllOk initState).1 = true ↔ (33816578 : Int) = 33816578 :=
  rod_result_code_criterion.1 3 envAllOk initState 33816578 (Or.inl rfl) rfl

/-- C4: the `available` flag is sticky.  In any post-setup operation a
`ParadoxModuleError` (authorization) handler leaves `available == false`;
in `async_setup` on a fresh device an authorization failure likewise
leaves `available == false`; no post-setup operation turns `available`
from false to true; `available` becomes true at setup only via a
successful login; and along any device lifetime, `available == true` at
the end implies the setup login succeeded and no executed path ever hit
an authorization failure. -/
theorem available_sticky_invariant :
    (∀ (st : DeviceState) (op : PostOp),
      ((postStep st op).2).authFail = true →
      ((postStep st op).1).available = false) ∧
    (∀ (cfg : Config) (login : Except RemoteError LoginData),
      ((async_setup cfg login initState).2.2).authFail = true →
      (setupState cfg login).available = false) ∧
    (∀ (st : DeviceState) (op : PostOp),
      ((postStep st op).1).available = true → st.available = true) ∧
    (∀ (cfg : Config) (login : Except RemoteError LoginData),
      (setupState cfg login).available = true →
      ∃ data, login = Except.ok data) ∧
    (∀ (cfg : Config) (login : Except RemoteError LoginData)
        (ops : List PostOp),
      (deviceRun cfg login ops).available = true →
      (∃ data, login = Except.ok data) ∧
      ∀ l ∈ deviceRunLogs cfg login ops, l.authFail = false) := by
  have hsetup : ∀ (cfg : Config) (login : Except RemoteError LoginData),
      (setupState cfg login).available = true →
      ∃ data, login = Except.ok data := by
    intro cfg login h
    cases login with
    | ok data => exact ⟨data, rfl⟩
    | error e =>
        cases e <;> simp [setupState, async_setup, initState] at h
  refine ⟨postStep_authFail, ?_, postStep_available_mono, hsetup, ?_⟩
  · intro cfg login h
    cases login with
    | ok data => simp [async_setup] at h
    | error e => cases e <;> simp_all [setupState, async_setup, initState]
  · intro cfg login ops h
    obtain ⟨h1, h2⟩ := runPost_available_inv ops (setupState cfg login) h
    exact ⟨hsetup cfg login h1, h2⟩

/-- C4 witness: a lifetime whose setup login succeeds and whose single
poll succeeds ends available, so the theorem yields a successful login and
an authorization-failure-free log. -/
theorem available_sticky_invariant_witness :
    (∃ data, (Except.ok testLoginData : Except RemoteError LoginData) =
      Except.ok data) ∧
    ∀ l ∈ deviceRunLogs testConfig (Except.ok testLoginData)
      [PostOp.updatePanel envAllOk], l.authFail = false :=
  available_sticky_invariant.2.2.2.2 testConfig (Except.ok testLoginData)
    [PostOp.updatePanel envAllOk] (by decide)

/-- C5: `async_update_alarm_panel` performs no authentication check or
re-login (its outcome depends only on the `pingstatus` result and it
performs zero login attempts); a transport failure surfaces `UpdateFailed`
without touching the state; an authorization failure sets
`available := false` and surfaces `UpdateFailed`; an unclassified failure
surfaces `UpdateFailed` without touching the state; success returns the
fresh payload. -/
theorem poll_contract :
    (∀ (env env' : Env) (st : DeviceState),
      env.pingstatusResult = env'.pingstatusResult →
      async_update_alarm_panel env st = async_update_alarm_panel env' st) ∧
    (∀ (env : Env) (st : DeviceState),
      ((async_update_alarm_panel env st).2.2).loginAttempts = 0) ∧
    (∀ (env : Env) (st : DeviceState) (payload : StatusPayload),
      env.pingstatusResult = Except.ok payload →
      async_update_alarm_panel env st = (PollResult.ok payload, st, noLog)) ∧
    (∀ (env : Env) (st : DeviceState),
      env.pingstatusResult = Except.error RemoteError.transport →
      async_update_alarm_panel env st =
        (PollResult.updateFailed RemoteError.transport, st, noLog)) ∧
    (∀ (env : Env) (st : DeviceState),
      env.pingstatusResult = Except.error RemoteError.authorization →
      (async_update_alarm_panel env st).1 =
        PollResult.updateFailed RemoteError.authorization ∧
      (async_update_alarm_panel env st).2.1 = { st with available := false }) ∧
    (∀ (env : Env) (st : DeviceState),
      env.pingstatusResult = Except.error RemoteError.unclassified →
      async_update_alarm_panel env st =
        (PollResult.updateFailed RemoteError.unclassified, st, noLog)) := by
  refine ⟨?_, ?_, ?_, ?_, ?_, ?_⟩
  · intro env env' st h
    unfold async_update_alarm_panel
    rw [h]
  · intro env st
    unfold async_update_alarm_panel
    cases h : env.pingstatusResult with
    | ok payload => simp [noLog]
    | error e => cases e <;> simp [noLog]
  · intro env st payload h
    unfold async_update_alarm_panel
    rw [h]
  · intro env st h
    unfold async_update_alarm_panel
    rw [h]
  · intro env st h
    unfold async_update_alarm_panel
    rw [h]
    exact ⟨rfl, rfl⟩
  · intro env st h
    unfold async_update_alarm_panel
    rw [h]

/-- C5 witness: a successful poll returns the fresh payload unchanged. -/
theorem poll_contract_witness :
    async_update_alarm_panel envAllOk initState =
      (PollResult.ok [("Software", 1)], initState, noLog) :=
  poll_contract.2.2.1 envAllOk initState [("Software", 1)] rfl

/-- C6: stream resolution is idempotent within an authenticated period:
with the session authenticated and a cached source present, the cached URI
is returned, the state is unchanged and no manifest fetch happens; a
second consecutive call on an authenticated session returns the URI the
first call cached, with no further fetch; and whenever the session is
found unauthenticated, the cached source is cleared before re-resolution
(the call behaves exactly as if no source were cached). -/
theorem stream_idempotent :
    (∀ (profile : CameraProfile) (env : Env) (st : DeviceState) (uri : String),
      env.isAuthenticated = true →
      st.last_stream_source = some uri →
      (async_stream_source profile env st).1 = some uri ∧
      (async_stream_source profile env st).2.1 = st ∧
      ((async_stream_source profile env st).2.2).manifestFetches = 0) ∧
    (∀ (profile : CameraProfile) (env env' : Env) (st : DeviceState)
        (uri : String),
      env'.isAuthenticated = true →
      ((async_stream_source profile env st).2.1).last_stream_source =
        some uri →
      (async_stream_source profile env'
        ((async_stream_source profile env st).2.1)).1 = some uri ∧
      ((async_stream_source profile env'
        ((async_stream_source profile env st).2.1)).2.2).manifestFetches = 0) ∧
    (∀ (profile : CameraProfile) (env : Env) (st : DeviceState),
      env.isAuthenticated = false →
      async_stream_source profile env st =
        async_stream_source profile env
          { st with last_stream_source := none }) := by
  have cached : ∀ (profile : CameraProfile) (env : Env) (st : DeviceState)
      (uri : String),
      env.isAuthenticated = true →
      st.last_stream_source = some uri →
      (async_stream_source profile env st).1 = some uri ∧
      (async_stream_source profile env st).2.1 = st ∧
      ((async_stream_source profile env st).2.2).manifestFetches = 0 := by
    intro profile env st uri h0 h1
    unfold async_stream_source
    simp only [h0, if_true]
    rw [streamResolve_cached profile env st noLog uri h1]
    exact ⟨rfl, rfl, rfl⟩
  refine ⟨cached, ?_, ?_⟩
  · intro profile env env' st uri h0 h1
    obtain ⟨r1, r2, r3⟩ :=
      cached profile env' ((async_stream_source profile env st).2.1) uri h0 h1
    exact ⟨r1, r3⟩
  · intro profile env st h0
    unfold async_stream_source
    simp only [h0, Bool.false_eq_true, if_false]

/-- C6 witness: a first resolution from an empty cache followed by a second
authenticated call returns the same URI with no second manifest fetch. -/
theorem stream_idempotent_witness :
    (async_stream_source CameraProfile.Normal envAllOk
      ((async_stream_source CameraProfile.Normal envAllOk initState).2.1)).1 =
      some "norm.m3u8" ∧
    ((async_stream_source CameraProfile.Normal envAllOk
      ((async_stream_source CameraProfile.Normal envAllOk
        initState).2.1)).2.2).manifestFetches = 0 :=
  stream_idempotent.2.1 CameraProfile.Normal envAllOk envAllOk initState
    "norm.m3u8" rfl (by decide)

/-- C7: whenever the setup login succeeds, `async_setup` returns success,
leaves `available == true`, and populates module and control-panel
identities whose serial numbers come from the login response (non-empty
whenever the response's serials are); both identities are untouched by
every later operation. -/
theorem setup_success_identity :
    (∀ (cfg : Config) (data : LoginData),
      (async_setup cfg (Except.ok data) initState).1 = true ∧
      (setupState cfg (Except.ok data)).available = true ∧
      (setupState cfg (Except.ok data)).device_info = some
        { manufacturer := MANUFACTURER, model := cfg.model, name := cfg.name,
          sw_version := data.version, serial := data.serial, mac := none } ∧
      (setupState cfg (Except.ok data)).panel_info = some
        { manufacturer := MANUFACTURER, model := "",
          name := "Paradox Control Panel",
          sw_version := data.cpVersion ++ "." ++ data.cpRevision,
          serial := data.cpSerialNo, mac := none }) ∧
    (∀ (cfg : Config) (data : LoginData),
      data.serial ≠ "" → data.cpSerialNo ≠ "" →
      ∃ di pi, (setupState cfg (Except.ok data)).device_info = some di ∧
        (setupState cfg (Except.ok data)).panel_info = some pi ∧
        di.serial ≠ "" ∧ pi.serial ≠ "") ∧
    (∀ (st : DeviceState) (ops : List PostOp),
      (runPost st ops).device_info = st.device_info ∧
      (runPost st ops).panel_info = st.panel_info) := by
  refine ⟨fun cfg data => ⟨rfl, rfl, rfl, rfl⟩, ?_, fun st ops => runPost_info ops st⟩
  intro cfg data h1 h2
  exact ⟨_, _, rfl, rfl, h1, h2⟩

/-- C7 witness: with a concrete successful login response carrying
non-empty serials, both identities are populated with non-empty serial
numbers. -/
theorem setup_success_identity_witness :
    ∃ di pi,
      (setupState testConfig (Except.ok testLoginData)).device_info =
        some di ∧
      (setupState testConfig (Except.ok testLoginData)).panel_info =
        some pi ∧
      di.serial ≠ "" ∧ pi.serial ≠ "" :=
  setup_success_identity.2.1 testConfig testLoginData (by decide) (by decide)

/-- C8: area commands use the encoding disarm = 6, arm-home = 3,
arm-away = 2, and the payload built for area `a` carries `AreaID = a`,
the command code, and `ForceZones = false`; in particular disarming area 1
submits `{AreaID 1, AreaCommand 6, ForceZones false}`. -/
theorem area_command_encoding :
    (∀ a : Nat,
      async_alarm_disarm_payload a =
        { AreaID := a, AreaCommand := 6, ForceZones := false } ∧
      async_alarm_arm_home_payload a =
        { AreaID := a, AreaCommand := 3, ForceZones := false } ∧
      async_alarm_arm_away_payload a =
        { AreaID := a, AreaCommand := 2, ForceZones := false }) ∧
    async_alarm_disarm_payload 1 =
      { AreaID := 1, AreaCommand := 6, ForceZones := false } :=
  ⟨fun a => ⟨rfl, rfl, rfl⟩, rfl⟩

/-- C9 counterexample: with an unauthenticated session, a cached source
"cached.m3u8" and a login that fails with `ParadoxModuleError`
(authorization), `async_stream_source` returns the failure value `''`, its
executed path hits the authorization handler, and the previously cached
source is NOT left in place: the cache ends empty. -/
theorem stream_failure_cache_counterexample :
    (async_stream_source CameraProfile.Normal envStaleAuthFail
        cachedState).1 = some "" ∧
    ((async_stream_source CameraProfile.Normal envStaleAuthFail
        cachedState).2.2).authFail = true ∧
    cachedState.last_stream_source = some "cached.m3u8" ∧
    ¬ ((async_stream_source CameraProfile.Normal envStaleAuthFail
        cachedState).2.1).last_stream_source = some "cached.m3u8" := by
  refine ⟨rfl, rfl, rfl, ?_⟩
  intro h
  exact Option.noConfusion h

/-- C9 (amended): `async_stream_source` never propagates a classified
failure: every classified failure (transport/timeout, authorization,
unclassified) returns the empty string `''`.  At every point where such a
failure can occur the cache is already empty — cleared by the
unauthenticated-session check before login, or absent since the manifest
is only fetched when nothing is cached — so after any classified failure
the cached source is empty; the transport handler (re)assigns the empty
cache, while the authorization and unclassified handlers do not themselves
touch the cache (the authorization handler additionally clears
`available`, the unclassified handler leaves availability unchanged). -/
theorem stream_failure_contract :
    (∀ (profile : CameraProfile) (env : Env) (st : DeviceState)
        (e : RemoteError),
      env.isAuthenticated = false →
      env.loginResult = Except.error e →
      (async_stream_source profile env st).1 = some "" ∧
      ((async_stream_source profile env st).2.1).last_stream_source = none ∧
      (e = RemoteError.authorization →
        ((async_stream_source profile env st).2.1).available = false) ∧
      (e ≠ RemoteError.authorization →
        ((async_stream_source profile env st).2.1).available =
          st.available)) ∧
    (∀ (profile : CameraProfile) (env : Env) (st : DeviceState)
        (e : RemoteError),
      env.isAuthenticated = true →
      st.last_stream_source = none →
      env.vodResult profile = Except.error e →
      (async_stream_source profile env st).1 = some "" ∧
      ((async_stream_source profile env st).2.1).last_stream_source = none ∧
      (e = RemoteError.authorization →
        ((async_stream_source profile env st).2.1).available = false) ∧
      (e ≠ RemoteError.authorization →
        ((async_stream_source profile env st).2.1).available =
          st.available)) ∧
    (∀ (profile : CameraProfile) (env : Env) (st : DeviceState)
        (e : RemoteError),
      env.isAuthenticated = false →
      env.loginResult = Except.ok () →
      env.vodResult profile = Except.error e →
      (async_stream_source profile env st).1 = some "" ∧
      ((async_stream_source profile env st).2.1).last_stream_source = none ∧
      (e = RemoteError.authorization →
        ((async_stream_source profile env st).2.1).available = false) ∧
      (e ≠ RemoteError.authorization →
        ((async_stream_source profile env st).2.1).available =
          st.available)) := by
  refine ⟨?_, ?_, ?_⟩
  · intro profile env st e h0 hl
    unfold async_stream_source
    simp only [h0, Bool.false_eq_true, if_false, hl]
    cases e <;> simp
  · intro profile env st e h0 h1 h2
    unfold async_stream_source
    simp only [h0, if_true]
    unfold streamResolve
    simp only [h1, h2]
    cases e <;> simp [h1]
  · intro profile env st e h0 hl h2
    unfold async_stream_source
    simp only [h0, Bool.false_eq_true, if_false, hl]
    unfold streamResolve
    simp only [h2]
    cases e <;> simp

/-- C9 witness: a stale session whose re-login raises an authorization
error yields `''`, an empty cache and `available == false`. -/
theorem stream_failure_contract_witness :
    (async_stream_source CameraProfile.Normal envStaleAuthFail
        cachedState).1 = some "" ∧
    ((async_stream_source CameraProfile.Normal envStaleAuthFail
        cachedState).2.1).last_stream_source = none ∧
    (RemoteError.authorization = RemoteError.authorization →
      ((async_stream_source CameraProfile.Normal envStaleAuthFail
        cachedState).2.1).available = false) ∧
    (RemoteError.authorization ≠ RemoteError.authorization →
      ((async_stream_source CameraProfile.Normal envStaleAuthFail
        cachedState).2.1).available = cachedState.available) :=
  stream_failure_contract.1 CameraProfile.Normal envStaleAuthFail
    cachedState RemoteError.authorization rfl rfl

/-- C10: when the fetched manifest has no variant matching the configured
bandwidth, `async_stream_source` returns `none` (Python `None`, distinct
from the failure value `''`), leaves the cached source unset, and a next
call on a still-authenticated session fetches the manifest again instead
of serving a cached empty result. -/
theorem stream_no_match_refetches :
    ∀ (profile : CameraProfile) (env env' : Env) (st : DeviceState)
      (playlists : List Playlist),
      env.isAuthenticated = true →
      st.last_stream_source = none →
      env.vodResult profile = Except.ok playlists →
      (∀ q ∈ playlists, q.bandwidth ≠ CAMERA_BANDWIDTH profile) →
      (async_stream_source profile env st).1 = none ∧
      (async_stream_source profile env st).1 ≠ some "" ∧
      ((async_stream_source profile env st).2.1).last_stream_source = none ∧
      (env'.isAuthenticated = true →
        ((async_stream_source profile env'
          ((async_stream_source profile env st).2.1)).2.2).manifestFetches =
            1) := by
  intro profile env env' st playlists h0 h1 h2 h3
  have hred : async_stream_source profile env st =
      (none, st,
        { loginAttempts := 0, loginOk := false, authFail := false,
          manifestFetches := 1 }) := by
    unfold async_stream_source
    simp only [h0, if_true]
    unfold streamResolve
    simp only [h1, h2,
      find_bandwidth_none (CAMERA_BANDWIDTH profile) playlists h3]
    rfl
  refine ⟨by rw [hred], by rw [hred]; simp, by rw [hred]; exact h1, ?_⟩
  intro h4
  rw [hred]
  unfold async_stream_source
  simp only [h4, if_true]
  exact streamResolve_fetch_uncached profile env' st noLog h1

/-- C10 witness: a manifest with only 128000 and 256000 variants under tier
High yields `none`, an unset cache, and a refetch on the next
authenticated call. -/
theorem stream_no_match_refetches_witness :
    (async_stream_source CameraProfile.High envNoMatch initState).1 = none ∧
    (async_stream_source CameraProfile.High envNoMatch initState).1 ≠
      some "" ∧
    ((async_stream_source CameraProfile.High envNoMatch
      initState).2.1).last_stream_source = none ∧
    (envNoMatch.isAuthenticated = true →
      ((async_stream_source CameraProfile.High envNoMatch
        ((async_stream_source CameraProfile.High envNoMatch
          initState).2.1)).2.2).manifestFetches = 1) :=
  stream_no_match_refetches CameraProfile.High envNoMatch envNoMatch
    initState
    [{ bandwidth := 128000, uri := "low.m3u8" },
     { bandwidth := 256000, uri := "norm.m3u8" }]
    rfl rfl rfl (by decide)
